import Mathlib

/-!
Verification of `recsplain/similarity_helpers.py`: a shallow embedding of the
backend-selection logic (`parse_server_name`) and the four backend adapters
(`FaissIndexFactory`, `LazyHnsw`, `SciKitNearestNeighbors`, `RedisIndex`),
together with theorems settling the specification claims about them.

Modelling conventions:
- vectors are `List Int` (the adapters only store and retrieve vectors; no
  claim depends on floating-point arithmetic, so exact integer components
  stand in for the float components and "within floating-point tolerance"
  becomes exact equality);
- a Python call that can raise is modelled as `Except String _`, the string
  naming the exception;
- methods of stateful objects take the state explicitly and return the new
  state; a method that both mutates and may raise returns a pair
  `(Except String _, new state)` so that mutations performed before an
  exception are visible, matching Python's in-place mutation;
- the module-level set `available_engines` (populated by try/except imports)
  becomes an explicit parameter of `parse_server_name`.
-/

/-- A stored vector: the embedding of a Python list of floats. -/
abbrev Vec := List Int

/-- Left-to-right effectful map over a list: the embedding of a Python list
comprehension whose body may raise — the first exception propagates and no
later element is evaluated. -/
def mapE {α β : Type} (f : α → Except String β) : List α → Except String (List β)
  | [] => .ok []
  | x :: xs =>
    match f x with
    | .error e => .error e
    | .ok y =>
      match mapE f xs with
      | .error e => .error e
      | .ok ys => .ok (y :: ys)

/-- Python `list.index`: index of the first occurrence, `none` when absent
(where Python raises `ValueError`). -/
def listIndex (x : Int) : List Int → Option Nat
  | [] => none
  | y :: ys => if y = x then some 0 else (listIndex x ys).map (· + 1)

/-- Python list subscription `l[j]` for a nonnegative index, `none` when out of
range (where Python raises `IndexError`). -/
def nth {α : Type} : List α → Nat → Option α
  | [], _ => none
  | x :: _, 0 => some x
  | _ :: xs, n + 1 => nth xs n

/-- First value stored under an integer key in an association list. -/
def assocFind {α : Type} (i : Int) : List (Int × α) → Option α
  | [] => none
  | p :: ps => if p.1 = i then some p.2 else assocFind i ps

/-- Lookup of one id in an id-to-vector store, raising `err` when the id was
never inserted (faiss `reconstruct` / hnswlib `get_items` both raise). -/
def assocLookup (err : String) (store : List (Int × Vec)) (i : Int) : Except String Vec :=
  match assocFind i store with
  | some v => .ok v
  | none => .error err

/-- ASCII lowercasing of one character, as Python `str.lower` acts on ASCII. -/
def charLower (c : Char) : Char :=
  if 'A' ≤ c ∧ c ≤ 'Z' then Char.ofNat (c.toNat + 32) else c

/-- ASCII lowercasing of a string (the spec's "lower-cased form" of a backend
name; backend aliases are ASCII). -/
def strLower (s : String) : String := String.mk (s.data.map charLower)

/-! ## Backend selector (`parse_server_name`) -/

/-- The four adapter classes `parse_server_name` can return. -/
inductive ServerAdapter : Type
  | lazyHnsw
  | faissIndexFactory
  | sciKitNearestNeighbors
  | redisIndex
deriving DecidableEq, Repr

/-- `parse_server_name` from the source, with the module-level
`available_engines` set passed explicitly.  The function is total by
construction: every branch returns an adapter class. -/
def parse_server_name (available_engines : List String) (sname : String) : ServerAdapter :=
  if sname = "hnswlib" ∨ sname = "hnsw" then
    if "hnswlib" ∈ available_engines then .lazyHnsw else .sciKitNearestNeighbors
  else if sname = "faiss" ∨ sname = "flatfaiss" then
    if "faiss" ∈ available_engines then .faissIndexFactory else .sciKitNearestNeighbors
  else if sname = "redis" then
    if "redis" ∈ available_engines then .redisIndex else .sciKitNearestNeighbors
  else .sciKitNearestNeighbors

lemma parse_hnsw_alias (av : List String) (sname : String)
    (h : sname = "hnswlib" ∨ sname = "hnsw") :
    parse_server_name av sname =
      (if "hnswlib" ∈ av then .lazyHnsw else .sciKitNearestNeighbors) := by
  simp only [parse_server_name]
  rw [if_pos h]

lemma parse_faiss_alias (av : List String) (sname : String)
    (h : sname = "faiss" ∨ sname = "flatfaiss") :
    parse_server_name av sname =
      (if "faiss" ∈ av then .faissIndexFactory else .sciKitNearestNeighbors) := by
  have hn : ¬ (sname = "hnswlib" ∨ sname = "hnsw") := by
    rcases h with h | h <;> subst h <;> decide
  simp only [parse_server_name]
  rw [if_neg hn, if_pos h]

lemma parse_redis_alias (av : List String) (sname : String)
    (h : sname = "redis") :
    parse_server_name av sname =
      (if "redis" ∈ av then .redisIndex else .sciKitNearestNeighbors) := by
  subst h
  simp [parse_server_name]

lemma parse_unknown (av : List String) (sname : String)
    (h1 : sname ≠ "hnswlib") (h2 : sname ≠ "hnsw") (h3 : sname ≠ "faiss")
    (h4 : sname ≠ "flatfaiss") (h5 : sname ≠ "redis") :
    parse_server_name av sname = .sciKitNearestNeighbors := by
  simp only [parse_server_name]
  rw [if_neg (by rintro (h | h) <;> contradiction),
    if_neg (by rintro (h | h) <;> contradiction), if_neg h5]

/-- Claim C1: backend resolution is total (the Lean function returns an adapter
class for every input by construction) and falls back silently: a known alias
whose engine is in `available_engines` resolves to that engine's adapter; a
known alias whose engine is unavailable, and any unknown name, resolve to the
reference `SciKitNearestNeighbors` adapter. -/
theorem parse_server_name_resolution (av : List String) (sname : String) :
    ((sname = "hnswlib" ∨ sname = "hnsw") →
      ("hnswlib" ∈ av → parse_server_name av sname = .lazyHnsw) ∧
      ("hnswlib" ∉ av → parse_server_name av sname = .sciKitNearestNeighbors))
    ∧ ((sname = "faiss" ∨ sname = "flatfaiss") →
      ("faiss" ∈ av → parse_server_name av sname = .faissIndexFactory) ∧
      ("faiss" ∉ av → parse_server_name av sname = .sciKitNearestNeighbors))
    ∧ (sname = "redis" →
      ("redis" ∈ av → parse_server_name av sname = .redisIndex) ∧
      ("redis" ∉ av → parse_server_name av sname = .sciKitNearestNeighbors))
    ∧ (sname ≠ "hnswlib" → sname ≠ "hnsw" → sname ≠ "faiss" → sname ≠ "flatfaiss" →
      sname ≠ "redis" → parse_server_name av sname = .sciKitNearestNeighbors) := by
  refine ⟨fun h => ⟨fun hav => ?_, fun hav => ?_⟩,
    fun h => ⟨fun hav => ?_, fun hav => ?_⟩,
    fun h => ⟨fun hav => ?_, fun hav => ?_⟩,
    fun h1 h2 h3 h4 h5 => parse_unknown av sname h1 h2 h3 h4 h5⟩
  · rw [parse_hnsw_alias av sname h, if_pos hav]
  · rw [parse_hnsw_alias av sname h, if_neg hav]
  · rw [parse_faiss_alias av sname h, if_pos hav]
  · rw [parse_faiss_alias av sname h, if_neg hav]
  · rw [parse_redis_alias av sname h, if_pos hav]
  · rw [parse_redis_alias av sname h, if_neg hav]

/-- Witness for C1: with only sklearn available, the known alias `"faiss"`
falls back to the reference adapter. -/
theorem parse_server_name_resolution_witness :
    parse_server_name ["sklearn"] "faiss" = .sciKitNearestNeighbors :=
  ((parse_server_name_resolution ["sklearn"] "faiss").2.1 (Or.inl rfl)).2 (by decide)

/-- Counterexample to C7 as stated: with hnswlib available, the upper-cased
alias `"HNSW"` resolves to the reference adapter while its lower-cased form
`"hnsw"` resolves to the hnswlib adapter — resolution is case-sensitive. -/
theorem parse_server_name_case_counterexample :
    parse_server_name ["sklearn", "hnswlib"] "HNSW" = .sciKitNearestNeighbors
    ∧ strLower "HNSW" = "hnsw"
    ∧ parse_server_name ["sklearn", "hnswlib"] "hnsw" = .lazyHnsw
    ∧ parse_server_name ["sklearn", "hnswlib"] "HNSW" ≠
        parse_server_name ["sklearn", "hnswlib"] "hnsw" := by
  refine ⟨rfl, by decide, rfl, by decide⟩

/-- Claim C7 (amended): resolution is case-sensitive.  Any name that is not
exactly one of the five lower-case alias strings — in particular any other
casing of an alias — resolves to the reference adapter, and hence agrees with
the resolution of its lower-cased form exactly when that form also resolves to
the reference adapter. -/
theorem parse_server_name_case_sensitive (av : List String) (sname : String)
    (h : sname ∉ (["hnswlib", "hnsw", "faiss", "flatfaiss", "redis"] : List String)) :
    parse_server_name av sname = .sciKitNearestNeighbors
    ∧ (parse_server_name av sname = parse_server_name av (strLower sname) ↔
        parse_server_name av (strLower sname) = .sciKitNearestNeighbors) := by
  simp only [List.mem_cons, List.mem_singleton, not_or] at h
  obtain ⟨h1, h2, h3, h4, h5, -⟩ := h
  have hu := parse_unknown av sname h1 h2 h3 h4 h5
  exact ⟨hu, by rw [hu, eq_comm]⟩

/-- Witness for the amended C7 at the concrete input `"HNSW"`: it is not a
recognized alias, resolves to the reference adapter, and (hnswlib being
available) disagrees with the resolution of `"hnsw"`. -/
theorem parse_server_name_case_sensitive_witness :
    parse_server_name ["sklearn", "hnswlib"] "HNSW" = .sciKitNearestNeighbors
    ∧ (parse_server_name ["sklearn", "hnswlib"] "HNSW" =
        parse_server_name ["sklearn", "hnswlib"] (strLower "HNSW") ↔
      parse_server_name ["sklearn", "hnswlib"] (strLower "HNSW") = .sciKitNearestNeighbors) :=
  parse_server_name_case_sensitive ["sklearn", "hnswlib"] "HNSW" (by decide)

/-! ## `FaissIndexFactory` (quantized/exact-index adapter) -/

/-- The two faiss metric constants the source selects between. -/
inductive FaissMetric : Type
  | metricInnerProduct
  | metricL2
deriving DecidableEq, Repr

/-- The requested-metric string a faiss metric constant realizes ("ip" for
`METRIC_INNER_PRODUCT`, "l2" for `METRIC_L2`). -/
def faissMetricName : FaissMetric → String
  | .metricInnerProduct => "ip"
  | .metricL2 => "l2"

/-- State of `FaissIndexFactory`: the wrapped `IndexIDMap2` is modelled as the
id-to-vector pairs added so far (`idmap`), in insertion order; `ntotal` is its
length. -/
structure FaissIndexFactory : Type where
  dim : Nat
  metric : FaissMetric
  factory : String
  idmap : List (Int × Vec)
deriving DecidableEq, Repr

/-- `FaissIndexFactory.__init__`: the returned pair carries the constructed
index and the lines written to stderr (the cosine-downgrade warning).  An
unsupported space raises `TypeError(str(space) + " is not supported")`. -/
def faissConstruct (space : String) (dim : Nat) (index_factory : String) :
    Except String (FaissIndexFactory × List String) :=
  let fac := if index_factory = "" then "Flat" else index_factory
  if space = "ip" ∨ space = "cosine" then
    .ok ({ dim := dim, metric := .metricInnerProduct, factory := fac, idmap := [] },
      if space = "cosine" then ["cosine is not supported yet, falling back to dot"] else [])
  else if space = "l2" then
    .ok ({ dim := dim, metric := .metricL2, factory := fac, idmap := [] }, [])
  else
    .error (space ++ " is not supported")

/-- `FaissIndexFactory.add_items`: `np.array(data).astype(np.float32)` followed
by `add_with_ids` — a ragged batch or one whose row length differs from the
index dimensionality raises before anything is added, as does an ids/data
length mismatch; otherwise the pairs are appended to the id map. -/
def FaissIndexFactory.add_items (f : FaissIndexFactory) (data : List Vec) (ids : List Int) :
    Except String FaissIndexFactory :=
  if data.any (fun v => v.length ≠ f.dim) then
    .error "ValueError: vector dimensionality does not match the index"
  else if data.length ≠ ids.length then
    .error "ValueError: ids length does not match data length"
  else
    .ok { f with idmap := f.idmap ++ ids.zip data }

/-- `FaissIndexFactory.get_items`: `np.vstack` over per-id `reconstruct` calls.
`reconstruct` raises for an id that was never added, and `np.vstack` of an
empty list raises. -/
def FaissIndexFactory.get_items (f : FaissIndexFactory) (ids : List Int) :
    Except String (List Vec) :=
  if ids.isEmpty then
    .error "ValueError: need at least one array to concatenate"
  else
    mapE (assocLookup "RuntimeError: reconstruct id not found" f.idmap) ids

/-- `FaissIndexFactory.get_current_count`: `self.index.ntotal`. -/
def FaissIndexFactory.get_current_count (f : FaissIndexFactory) : Nat :=
  f.idmap.length

/-- `FaissIndexFactory.get_max_elements`: always `-1` (unbounded). -/
def FaissIndexFactory.get_max_elements (_ : FaissIndexFactory) : Int := -1

/-! ## `SciKitNearestNeighbors` (reference brute-force adapter) -/

/-- State of `SciKitNearestNeighbors`: the effective metric string, the
declared dimensionality, the two parallel lists `items`/`ids`, and the
`fitted` flag. -/
structure SciKitNearestNeighbors : Type where
  space : String
  dim : Nat
  items : List Vec
  ids : List Int
  fitted : Bool
deriving DecidableEq, Repr

/-- `SciKitNearestNeighbors.__init__`: `"ip"` is downgraded to `"cosine"` with
a stderr warning; every other space string is stored as given (sklearn
validates metrics only at fit time, not at construction).  The second
component is the list of stderr lines. -/
def sciKitConstruct (space : String) (dim : Nat) : SciKitNearestNeighbors × List String :=
  if space = "ip" then
    ({ space := "cosine", dim := dim, items := [], ids := [], fitted := false },
      ["Warning: ip is not supported by sklearn, falling back to cosine"])
  else
    ({ space := space, dim := dim, items := [], ids := [], fitted := false }, [])

/-- `SciKitNearestNeighbors.add_items`: extends both parallel lists and clears
the fitted flag.  There is no dimensionality (or any other) check, and no
exception is possible: the return type is the new state, not `Except`. -/
def SciKitNearestNeighbors.add_items (s : SciKitNearestNeighbors)
    (data : List Vec) (ids : List Int) : SciKitNearestNeighbors :=
  { s with items := s.items ++ data, ids := s.ids ++ ids, fitted := false }

/-- One element of the `get_items` comprehension:
`self.items[self.ids.index(i)]` — `list.index` raises `ValueError` when the id
is absent, and the subscript raises `IndexError` when out of range. -/
def sciKitLookup (ids : List Int) (items : List Vec) (i : Int) : Except String Vec :=
  match listIndex i ids with
  | some j =>
    match nth items j with
    | some v => .ok v
    | none => .error "IndexError: list index out of range"
  | none => .error "ValueError: id is not in list"

/-- `SciKitNearestNeighbors.get_items`: the comprehension
`[self.items[self.ids.index(i)] for i in ids]`. -/
def SciKitNearestNeighbors.get_items (s : SciKitNearestNeighbors) (ids : List Int) :
    Except String (List Vec) :=
  mapE (sciKitLookup s.ids s.items) ids

/-- `SciKitNearestNeighbors.get_current_count`: `len(self.items)`. -/
def SciKitNearestNeighbors.get_current_count (s : SciKitNearestNeighbors) : Nat :=
  s.items.length

/-- `SciKitNearestNeighbors.get_max_elements`: always `-1` (unbounded). -/
def SciKitNearestNeighbors.get_max_elements (_ : SciKitNearestNeighbors) : Int := -1

/-- A fresh reference index with metric `"l2"` (what `sciKitConstruct "l2" d`
returns, with no warnings). -/
def sciKitFresh (d : Nat) : SciKitNearestNeighbors :=
  { space := "l2", dim := d, items := [], ids := [], fitted := false }

lemma sciKitConstruct_l2 (d : Nat) : sciKitConstruct "l2" d = (sciKitFresh d, []) := rfl

/-- A fresh faiss index with metric `"l2"` and the default `"Flat"` factory
(what `faissConstruct "l2" d ""` returns, with no warnings). -/
def faissFresh (d : Nat) : FaissIndexFactory :=
  { dim := d, metric := .metricL2, factory := "Flat", idmap := [] }

lemma faissConstruct_l2 (d : Nat) : faissConstruct "l2" d "" = .ok (faissFresh d, []) := rfl

/-- Claim C4: metric handling at construction.  The faiss adapter rejects any
space outside `{ip, cosine, l2}` with a `TypeError`; `cosine` is accepted but
downgraded to inner-product with a stderr warning; `l2` maps to `METRIC_L2`
silently.  The reference adapter downgrades `ip` to `cosine` with a warning.
Whenever either adapter constructs an index whose effective metric differs
from the requested one, a warning was emitted — neither silently computes with
a wrong metric. -/
theorem metric_policy_construction (space : String) (d : Nat) (fac : String) :
    (space ≠ "ip" → space ≠ "cosine" → space ≠ "l2" →
      faissConstruct space d fac = .error (space ++ " is not supported"))
    ∧ faissConstruct "cosine" d fac =
        .ok ({ dim := d, metric := .metricInnerProduct,
               factory := if fac = "" then "Flat" else fac, idmap := [] },
          ["cosine is not supported yet, falling back to dot"])
    ∧ faissConstruct "l2" d fac =
        .ok ({ dim := d, metric := .metricL2,
               factory := if fac = "" then "Flat" else fac, idmap := [] }, [])
    ∧ sciKitConstruct "ip" d =
        ({ space := "cosine", dim := d, items := [], ids := [], fitted := false },
          ["Warning: ip is not supported by sklearn, falling back to cosine"])
    ∧ (∀ st w, faissConstruct space d fac = .ok (st, w) →
        faissMetricName st.metric ≠ space → w ≠ [])
    ∧ (∀ st w, sciKitConstruct space d = (st, w) → st.space ≠ space → w ≠ []) := by
  refine ⟨fun h1 h2 h3 => ?_, ?_, ?_, ?_, fun st w hok hm => ?_, fun st w hok hm => ?_⟩
  · simp only [faissConstruct]
    rw [if_neg (by rintro (h | h) <;> contradiction), if_neg h3]
  · simp [faissConstruct]
  · simp [faissConstruct]
  · simp [sciKitConstruct]
  · by_cases hip : space = "ip"
    · subst hip
      simp [faissConstruct] at hok
      obtain ⟨hst, hw⟩ := hok
      subst hst
      simp [faissMetricName] at hm
    · by_cases hcos : space = "cosine"
      · subst hcos
        simp [faissConstruct] at hok
        obtain ⟨hst, hw⟩ := hok
        subst hw
        simp
      · by_cases hl2 : space = "l2"
        · subst hl2
          simp [faissConstruct] at hok
          obtain ⟨hst, hw⟩ := hok
          subst hst
          simp [faissMetricName] at hm
        · simp [faissConstruct, hip, hcos, hl2] at hok
  · by_cases hip : space = "ip"
    · subst hip
      simp [sciKitConstruct] at hok
      obtain ⟨hst, hw⟩ := hok
      subst hw
      simp
    · simp [sciKitConstruct, hip] at hok
      obtain ⟨hst, hw⟩ := hok
      subst hst
      simp at hm

/-- Witness for C4 at concrete inputs: the unmapped space `"bogus"` is rejected
by the faiss adapter. -/
theorem metric_policy_construction_witness :
    faissConstruct "bogus" 4 "" = .error ("bogus" ++ " is not supported") :=
  (metric_policy_construction "bogus" 4 "").1 (by decide) (by decide) (by decide)

/-- Counterexample to C2 as stated: on a fresh, never-allocated reference
adapter, `get_items [1]` raises `ValueError` (from `self.ids.index(1)` on an
empty list) instead of returning an empty result. -/
theorem sciKit_uninitialized_get_items_raises :
    (sciKitFresh 4).get_items [1] = .error "ValueError: id is not in list"
    ∧ (sciKitFresh 4).get_current_count = 0 :=
  ⟨rfl, rfl⟩

/-- Counterexample to C9 as stated: the reference adapter performs no
dimensionality check — adding a length-3 vector to a dim-2 index raises
nothing (the model's `add_items` is exception-free by its type), the vector is
stored, and the count changes from 0 to 1. -/
theorem sciKit_add_items_no_dim_check :
    ((sciKitFresh 2).add_items [[1, 2, 3]] [7]).get_current_count = 1
    ∧ ((sciKitFresh 2).add_items [[1, 2, 3]] [7]).items = [[1, 2, 3]]
    ∧ ((sciKitFresh 2).add_items [[1, 2, 3]] [7]).ids = [7] :=
  ⟨rfl, rfl, rfl⟩

/-! ## `LazyHnsw` (capacity-bounded hnswlib adapter)

`LazyHnsw` subclasses `hnswlib.Index`.  The inherited engine state is modelled
by the fields `max_elements` (allocated capacity, `0` while the index is
uninitialized — hnswlib reports `0` for both properties before `init_index`),
`element_count`, and `store` (the inserted id-to-vector pairs, modelled for
distinct ids: every claim about insertion assumes unique ids).  The inherited
methods `init_index`, `resize_index`, `add_items`, `get_items` and `knn_query`
are modelled from hnswlib's documented behavior, prefixed `base`. -/

structure LazyHnsw : Type where
  space : String
  dim : Nat
  init_max_elements : Nat
  init_ef_construction : Nat
  init_M : Nat
  max_elements : Nat
  element_count : Nat
  store : List (Int × Vec)
deriving DecidableEq, Repr

/-- `LazyHnsw.__init__(space, dim, index_factory=None, max_elements=1024,
ef_construction=200, M=16)`: stores the construction parameters and defers all
engine allocation (`super().__init__(space, dim)` creates an uninitialized
index, whose reported capacity and count are `0`). -/
def lazyHnswNew (space : String) (dim : Nat) (max_elements : Nat)
    (ef_construction : Nat) (M : Nat) : LazyHnsw :=
  { space := space, dim := dim, init_max_elements := max_elements,
    init_ef_construction := ef_construction, init_M := M,
    max_elements := 0, element_count := 0, store := [] }

/-- A fresh `LazyHnsw` with all constructor defaults
(`max_elements=1024, ef_construction=200, M=16`). -/
def lazyHnswFresh (d : Nat) : LazyHnsw := lazyHnswNew "l2" d 1024 200 16

/-- `hnswlib.Index.resize_index`: sets the capacity to the requested size;
a size below the current element count raises. -/
def baseResizeIndex (h : LazyHnsw) (n : Nat) : Except String Unit × LazyHnsw :=
  if n < h.element_count then
    (.error "RuntimeError: cannot resize below the current element count", h)
  else
    (.ok (), { h with max_elements := n })

/-- `hnswlib.Index.add_items`: validates the batch (matching ids length and
vector dimensionality, free capacity) before inserting anything; on success
appends the pairs and advances the element count. -/
def baseAddItems (h : LazyHnsw) (data : List Vec) (ids : List Int) :
    Except String Unit × LazyHnsw :=
  if data.length ≠ ids.length then
    (.error "RuntimeError: wrong number of ids", h)
  else if data.any (fun v => v.length ≠ h.dim) then
    (.error "RuntimeError: wrong dimensionality of the vectors", h)
  else if h.max_elements < h.element_count + data.length then
    (.error "RuntimeError: the number of elements exceeds the specified limit", h)
  else
    (.ok (),
      { h with
          store := h.store ++ ids.zip data
          element_count := h.element_count + data.length })

/-- `LazyHnsw.init(max_elements=0)`: a zero argument falls back to the
`init_max_elements` captured at construction; then
`super().init_index(max_elements, M, ef_construction)` allocates capacity. -/
def LazyHnsw.init (h : LazyHnsw) (max_elements : Nat) : LazyHnsw :=
  { h with max_elements :=
      if max_elements = 0 then h.init_max_elements else max_elements }

/-- The body of `LazyHnsw.add_items` after the lazy initialization: grow to
`max(len(data) + element_count, max_elements)` when the batch would overflow,
then delegate to the engine insert. -/
def lazyGrowAndInsert (h1 : LazyHnsw) (data : List Vec) (ids : List Int) :
    Except String Unit × LazyHnsw :=
  if h1.max_elements < data.length + h1.element_count then
    match baseResizeIndex h1 (max (data.length + h1.element_count) h1.max_elements) with
    | (.error e, h2) => (.error e, h2)
    | (.ok _, h2) => baseAddItems h2 data ids
  else
    baseAddItems h1 data ids

/-- `LazyHnsw.add_items`: lazily initializes when the capacity is `0`, then
grows if needed and inserts. -/
def LazyHnsw.add_items (h : LazyHnsw) (data : List Vec) (ids : List Int) :
    Except String Unit × LazyHnsw :=
  lazyGrowAndInsert (if h.max_elements = 0 then h.init 0 else h) data ids

/-- `LazyHnsw.get_items`: `[]` while uninitialized, otherwise the engine lookup
(raising for an id that was never inserted). -/
def LazyHnsw.get_items (h : LazyHnsw) (ids : List Int) : Except String (List Vec) :=
  if h.max_elements = 0 then .ok []
  else mapE (assocLookup "RuntimeError: label not found" h.store) ids

/-- Squared euclidean distance, the ranking used by the modelled engine scan. -/
def sqDist (u v : Vec) : Int := ((u.zip v).map (fun p => (p.1 - p.2) * (p.1 - p.2))).sum

/-- Insertion into a list of (id, score) pairs kept sorted by score. -/
def insertRanked (x : Int × Int) : List (Int × Int) → List (Int × Int)
  | [] => [x]
  | y :: ys => if x.2 ≤ y.2 then x :: y :: ys else y :: insertRanked x ys

/-- `hnswlib.Index.knn_query`, returning `(labels, distances)` per query.  The
engine's internal ANN search is out of scope (an opaque engine per the spec);
it is modelled as an exact scan ranked by squared euclidean distance.  No claim
depends on this branch: every claim about `knn_query`/`search` concerns only
the uninitialized state. -/
def baseKnnQuery (h : LazyHnsw) (data : List Vec) (k : Nat) :
    List (List Int) × List (List Int) :=
  let per := data.map (fun q =>
    ((h.store.map (fun p => (p.1, sqDist q p.2))).foldr insertRanked []).take k)
  (per.map (fun l => l.map Prod.fst), per.map (fun l => l.map Prod.snd))

/-- `LazyHnsw.knn_query`: `([], [])` while uninitialized, otherwise the engine
query. -/
def LazyHnsw.knn_query (h : LazyHnsw) (data : List Vec) (k : Nat) :
    List (List Int) × List (List Int) :=
  if h.max_elements = 0 then ([], []) else baseKnnQuery h data k

/-- `LazyHnsw.search`: `I, D = knn_query(data, k); return (D, I)`. -/
def LazyHnsw.search (h : LazyHnsw) (data : List Vec) (k : Nat) :
    List (List Int) × List (List Int) :=
  ((h.knn_query data k).2, (h.knn_query data k).1)

/-- `LazyHnsw.resize_index`: on an uninitialized index delegates to `init`
(hence a size of `0` re-reads `init_max_elements`), otherwise to the engine
resize. -/
def LazyHnsw.resize_index (h : LazyHnsw) (size : Nat) : Except String Unit × LazyHnsw :=
  if h.max_elements = 0 then (.ok (), h.init size) else baseResizeIndex h size

/-- `LazyHnsw.set_ef`: on an uninitialized index records the value in
`init_ef_construction`; otherwise `super().set_ef` sets the engine's query-time
parameter, which is outside the modelled state and touches neither capacity nor
contents. -/
def LazyHnsw.set_ef (h : LazyHnsw) (ef : Nat) : LazyHnsw :=
  if h.max_elements = 0 then { h with init_ef_construction := ef } else h

/-- `LazyHnsw.get_max_elements`: `self.max_elements`. -/
def LazyHnsw.get_max_elements (h : LazyHnsw) : Nat := h.max_elements

/-- `LazyHnsw.get_current_count`: `self.element_count`. -/
def LazyHnsw.get_current_count (h : LazyHnsw) : Nat := h.element_count

/-- One contract operation on a `LazyHnsw` index, for stating properties of
operation sequences. -/
inductive HnswOp : Type
  | addItems (data : List Vec) (ids : List Int)
  | resizeIndex (size : Nat)
  | searchOp (data : List Vec) (k : Nat)
  | getItems (ids : List Int)
  | setEf (ef : Nat)
deriving DecidableEq, Repr

/-- Whether an operation is a `resize_index` call. -/
def HnswOp.isResize : HnswOp → Bool
  | .resizeIndex _ => true
  | _ => false

/-- The state after one contract operation (read operations leave the state
unchanged; a failed mutation keeps the mutations already performed, as Python
objects mutate in place). -/
def hnswStep (h : LazyHnsw) : HnswOp → LazyHnsw
  | .addItems data ids => (h.add_items data ids).2
  | .resizeIndex n => (h.resize_index n).2
  | .searchOp _ _ => h
  | .getItems _ => h
  | .setEf ef => h.set_ef ef

/-- The state after a sequence of contract operations. -/
def hnswRun (h : LazyHnsw) : List HnswOp → LazyHnsw
  | [] => h
  | op :: ops => hnswRun (hnswStep h op) ops

lemma baseAddItems_max (h : LazyHnsw) (data : List Vec) (ids : List Int) :
    ((baseAddItems h data ids).2).max_elements = h.max_elements := by
  unfold baseAddItems
  split_ifs <;> rfl

lemma lazyGrowAndInsert_max (h1 : LazyHnsw) (data : List Vec) (ids : List Int) :
    ((lazyGrowAndInsert h1 data ids).2).max_elements =
      max h1.max_elements (data.length + h1.element_count) := by
  unfold lazyGrowAndInsert
  by_cases hg : h1.max_elements < data.length + h1.element_count
  · rw [if_pos hg]
    unfold baseResizeIndex
    rw [if_neg (by omega)]
    show (baseAddItems
      { h1 with max_elements := max (data.length + h1.element_count) h1.max_elements }
      data ids).2.max_elements = _
    rw [baseAddItems_max]
    show max (data.length + h1.element_count) h1.max_elements = _
    exact Nat.max_comm _ _
  · rw [if_neg hg, baseAddItems_max]
    omega

lemma add_items_max (h : LazyHnsw) (data : List Vec) (ids : List Int) :
    ((h.add_items data ids).2).max_elements =
      max (if h.max_elements = 0 then h.init_max_elements else h.max_elements)
        (data.length + h.element_count) := by
  unfold LazyHnsw.add_items
  rw [lazyGrowAndInsert_max]
  by_cases h0 : h.max_elements = 0
  · rw [if_pos h0, if_pos h0]
    simp [LazyHnsw.init]
  · rw [if_neg h0, if_neg h0]

/-- Claim C2 (amended, hnswlib adapter): on a freshly constructed — hence
uninitialized, never-allocated — `LazyHnsw` index, `get_current_count` is `0`,
`search` returns the empty result `([], [])`, and `get_items` returns the
empty list, all without raising (the claim's universal quantification over
every adapter fails: see `sciKit_uninitialized_get_items_raises`). -/
theorem lazyHnsw_uninitialized_reads (space : String) (d m ef M : Nat)
    (q : List Vec) (k : Nat) (ids : List Int) :
    (lazyHnswNew space d m ef M).get_current_count = 0
    ∧ (lazyHnswNew space d m ef M).search q k = ([], [])
    ∧ (lazyHnswNew space d m ef M).get_items ids = .ok [] :=
  ⟨rfl, rfl, rfl⟩

/-- Counterexample to C3 as stated: an index declared with capacity `0` does
not allocate the default `1024` on the first insertion — `init` re-reads the
declared `0`, and the growth step then resizes to the batch size, so after
inserting three items the capacity is `3`, not `1024` (the insertion itself
succeeds). -/
theorem lazyHnsw_default_capacity_counterexample :
    ((lazyHnswNew "l2" 2 0 200 16).add_items [[0, 0], [0, 0], [0, 0]] [1, 2, 3]).2.max_elements = 3
    ∧ ((lazyHnswNew "l2" 2 0 200 16).add_items [[0, 0], [0, 0], [0, 0]] [1, 2, 3]).2.max_elements ≠ 1024
    ∧ ((lazyHnswNew "l2" 2 0 200 16).add_items [[0, 0], [0, 0], [0, 0]] [1, 2, 3]).1 = .ok () :=
  ⟨rfl, by decide, rfl⟩

/-- Claim C3 (amended): on the first `add_items` call of an uninitialized
index, storage is allocated at the capacity declared at construction (the
constructor's default for that argument is `1024`; a declared `0` allocates
`0`, after which the growth rule of the same call resizes to the batch size —
so the capacity after the call is `max declared batch`); on any call on an
allocated index whose batch would overflow, the capacity grows to
`max(allocated, count + incoming)` before insertion, and otherwise it is
unchanged. -/
theorem lazyHnsw_capacity_policy (h : LazyHnsw) (data : List Vec) (ids : List Int) :
    (h.max_elements = 0 → h.element_count = 0 →
      ((h.add_items data ids).2).max_elements = max h.init_max_elements data.length)
    ∧ (h.max_elements ≠ 0 → h.max_elements < h.element_count + data.length →
      ((h.add_items data ids).2).max_elements = max h.max_elements (h.element_count + data.length))
    ∧ (h.max_elements ≠ 0 → h.element_count + data.length ≤ h.max_elements →
      ((h.add_items data ids).2).max_elements = h.max_elements) := by
  refine ⟨fun h0 hc => ?_, fun h0 hg => ?_, fun h0 hg => ?_⟩
  · rw [add_items_max, if_pos h0, hc, Nat.add_zero]
  · rw [add_items_max, if_neg h0]
    omega
  · rw [add_items_max, if_neg h0]
    omega

/-- Witness for the amended C3: declared capacity `5`, first batch of `3`
items — the capacity after the call is `max 5 3 = 5`. -/
theorem lazyHnsw_capacity_policy_witness :
    (((lazyHnswNew "l2" 2 5 200 16).add_items [[0, 0], [0, 0], [0, 0]] [1, 2, 3]).2).max_elements =
      max 5 3 :=
  (lazyHnsw_capacity_policy (lazyHnswNew "l2" 2 5 200 16)
    [[0, 0], [0, 0], [0, 0]] [1, 2, 3]).1 rfl rfl

lemma hnswStep_max_mono (h : LazyHnsw) (op : HnswOp) (hop : op.isResize = false) :
    h.max_elements ≤ (hnswStep h op).max_elements := by
  cases op with
  | addItems data ids =>
    simp only [hnswStep]
    rw [add_items_max]
    by_cases h0 : h.max_elements = 0
    · rw [h0]
      exact Nat.zero_le _
    · rw [if_neg h0]
      exact Nat.le_max_left _ _
  | resizeIndex n => simp [HnswOp.isResize] at hop
  | searchOp data k => exact le_refl _
  | getItems ids => exact le_refl _
  | setEf ef =>
    simp only [hnswStep, LazyHnsw.set_ef]
    split <;> exact le_refl _

/-- Claim C8 (amended): over every sequence of contract operations that
contains no `resize_index` call, the allocated capacity reported by
`get_max_elements` never decreases.  The claim's inclusion of `resize_index`
fails: on an allocated index `resize_index` sets the capacity to exactly the
requested size (any size at or above the element count), which may shrink it —
see `lazyHnsw_capacity_shrink_counterexample`. -/
theorem lazyHnsw_capacity_monotone (h : LazyHnsw) (ops : List HnswOp)
    (hres : ∀ op ∈ ops, op.isResize = false) :
    h.max_elements ≤ (hnswRun h ops).max_elements := by
  induction ops generalizing h with
  | nil => exact le_refl _
  | cons op ops ih =>
    simp only [hnswRun]
    refine le_trans (hnswStep_max_mono h op (hres op (List.mem_cons_self op ops))) ?_
    exact ih (hnswStep h op) (fun o ho => hres o (List.mem_cons_of_mem op ho))

/-- Witness for the amended C8: starting from an allocated index of capacity
`1024`, a further insertion and a search leave the capacity at least `1024`. -/
theorem lazyHnsw_capacity_monotone_witness :
    (hnswRun (lazyHnswFresh 2) [.addItems [[1, 2]] [1]]).max_elements ≤
      (hnswRun (hnswRun (lazyHnswFresh 2) [.addItems [[1, 2]] [1]])
        [.addItems [[3, 4]] [2], .searchOp [[0, 0]] 1]).max_elements :=
  lazyHnsw_capacity_monotone (hnswRun (lazyHnswFresh 2) [.addItems [[1, 2]] [1]])
    [.addItems [[3, 4]] [2], .searchOp [[0, 0]] 1] (by decide)

/-- Counterexample to C8 as stated: after one insertion the default-constructed
index has capacity `1024`; the subsequent contract operation
`resize_index 5` shrinks `get_max_elements` to `5`. -/
theorem lazyHnsw_capacity_shrink_counterexample :
    (hnswRun (lazyHnswFresh 2) [.addItems [[1, 2]] [1]]).get_max_elements = 1024
    ∧ (hnswRun (lazyHnswFresh 2)
        [.addItems [[1, 2]] [1], .resizeIndex 5]).get_max_elements = 5 :=
  ⟨rfl, rfl⟩

/-! ## Round-trip lemmas for insertion followed by retrieval -/

lemma mapE_cons_ok {α β : Type} (f : α → Except String β) (x : α) (xs : List α) (y : β)
    (hx : f x = .ok y) :
    mapE f (x :: xs) = (mapE f xs).map (fun ys => y :: ys) := by
  simp only [mapE, hx]
  cases mapE f xs <;> rfl

lemma listIndex_append_of_not_mem (A : List Int) (i : Int) (B : List Int) (h : i ∉ A) :
    listIndex i (A ++ i :: B) = some A.length := by
  induction A with
  | nil => simp [listIndex]
  | cons a A ih =>
    have hai : ¬ a = i := by
      rintro rfl
      exact h (List.mem_cons_self a A)
    simp only [List.cons_append, listIndex, List.append_eq, if_neg hai]
    rw [ih (fun hm => h (List.mem_cons_of_mem a hm))]
    rfl

lemma nth_append_length {α : Type} (A : List α) (v : α) (B : List α) :
    nth (A ++ v :: B) A.length = some v := by
  induction A with
  | nil => rfl
  | cons a A ih => exact ih

lemma mapE_sciKitLookup (B : List Int) (D : List Vec) (A : List Int) (C : List Vec)
    (hAC : A.length = C.length) (hBD : B.length = D.length)
    (hnd : (A ++ B).Nodup) :
    mapE (sciKitLookup (A ++ B) (C ++ D)) B = .ok D := by
  induction B generalizing D A C with
  | nil =>
    cases D with
    | nil => rfl
    | cons v D => simp at hBD
  | cons i B ih =>
    cases D with
    | nil => simp at hBD
    | cons v D =>
      have hdis := (List.nodup_append.mp hnd).2.2
      have hiA : i ∉ A := fun hmem => hdis hmem (List.mem_cons_self i B)
      have hf : sciKitLookup (A ++ i :: B) (C ++ v :: D) i = .ok v := by
        unfold sciKitLookup
        rw [listIndex_append_of_not_mem A i B hiA, hAC]
        simp only [nth_append_length]
      rw [mapE_cons_ok _ _ _ _ hf]
      have hA : A ++ i :: B = (A ++ [i]) ++ B := by simp
      have hC : C ++ v :: D = (C ++ [v]) ++ D := by simp
      rw [hA, hC, ih D (A ++ [i]) (C ++ [v]) (by simp [hAC]) (by simpa using hBD)
        (hA ▸ hnd)]
      rfl

lemma assocFind_append_of_not_mem (A : List (Int × Vec)) (i : Int) (v : Vec)
    (B : List (Int × Vec)) (h : i ∉ A.map Prod.fst) :
    assocFind i (A ++ (i, v) :: B) = some v := by
  induction A with
  | nil => simp [assocFind]
  | cons p A ih =>
    simp only [List.map_cons, List.mem_cons, not_or] at h
    obtain ⟨h1, h2⟩ := h
    simp only [List.cons_append, assocFind, List.append_eq,
      if_neg (fun hh : p.1 = i => h1 hh.symm)]
    exact ih h2

lemma mapE_assocLookup (err : String) (B : List (Int × Vec)) (A : List (Int × Vec))
    (hnd : ((A ++ B).map Prod.fst).Nodup) :
    mapE (assocLookup err (A ++ B)) (B.map Prod.fst) = .ok (B.map Prod.snd) := by
  induction B generalizing A with
  | nil => rfl
  | cons p B ih =>
    obtain ⟨i, v⟩ := p
    have hiA : i ∉ A.map Prod.fst := by
      rw [List.map_append] at hnd
      have hdis := (List.nodup_append.mp hnd).2.2
      exact fun hmem => hdis hmem (by simp)
    have hf : assocLookup err (A ++ (i, v) :: B) i = .ok v := by
      unfold assocLookup
      rw [assocFind_append_of_not_mem A i v B hiA]
    show mapE (assocLookup err (A ++ (i, v) :: B)) (i :: B.map Prod.fst) =
      .ok (v :: B.map Prod.snd)
    rw [mapE_cons_ok _ _ _ _ hf]
    have hA : A ++ (i, v) :: B = (A ++ [(i, v)]) ++ B := by simp
    rw [hA, ih (A ++ [(i, v)]) (hA ▸ hnd)]
    rfl

lemma zip_map_fst_snd (S : List (Int × Vec)) :
    (S.map Prod.fst).zip (S.map Prod.snd) = S := by
  rw [List.zip_map']
  simp

lemma sciKit_round_trip (d : Nat) (S : List (Int × Vec))
    (hnd : (S.map Prod.fst).Nodup) :
    ((sciKitFresh d).add_items (S.map Prod.snd) (S.map Prod.fst)).get_current_count = S.length
    ∧ ((sciKitFresh d).add_items (S.map Prod.snd) (S.map Prod.fst)).get_items
        (S.map Prod.fst) = .ok (S.map Prod.snd) := by
  constructor
  · simp [SciKitNearestNeighbors.add_items, SciKitNearestNeighbors.get_current_count,
      sciKitFresh]
  · exact mapE_sciKitLookup (S.map Prod.fst) (S.map Prod.snd) [] [] rfl (by simp) hnd

lemma faiss_add_ok (d : Nat) (S : List (Int × Vec))
    (hdim : ∀ p ∈ S, p.2.length = d) :
    (faissFresh d).add_items (S.map Prod.snd) (S.map Prod.fst) =
      .ok { dim := d, metric := .metricL2, factory := "Flat", idmap := S } := by
  unfold FaissIndexFactory.add_items
  rw [if_neg (by
    simp only [List.any_eq_true, decide_eq_true_eq, not_exists]
    intro v
    simp only [not_and, not_not]
    intro hv
    obtain ⟨p, hp, rfl⟩ := List.mem_map.mp hv
    exact hdim p hp)]
  rw [if_neg (by simp)]
  rw [show (faissFresh d).idmap ++ (S.map Prod.fst).zip (S.map Prod.snd) = S by
    simp [faissFresh, zip_map_fst_snd]]
  rfl

lemma faiss_round_trip (d : Nat) (S : List (Int × Vec))
    (hnd : (S.map Prod.fst).Nodup) (hdim : ∀ p ∈ S, p.2.length = d) (hne : S ≠ []) :
    ((faissFresh d).add_items (S.map Prod.snd) (S.map Prod.fst)).map
        FaissIndexFactory.get_current_count = .ok S.length
    ∧ ((faissFresh d).add_items (S.map Prod.snd) (S.map Prod.fst)).bind
        (fun f => f.get_items (S.map Prod.fst)) = .ok (S.map Prod.snd) := by
  rw [faiss_add_ok d S hdim]
  constructor
  · simp [Except.map, FaissIndexFactory.get_current_count]
  · show FaissIndexFactory.get_items
      { dim := d, metric := .metricL2, factory := "Flat", idmap := S }
      (S.map Prod.fst) = .ok (S.map Prod.snd)
    unfold FaissIndexFactory.get_items
    rw [if_neg (by
      simp only [List.isEmpty_eq_true, List.map_eq_nil_iff]
      exact hne)]
    exact mapE_assocLookup "RuntimeError: reconstruct id not found" S [] hnd

lemma baseAddItems_ok (h : LazyHnsw) (data : List Vec) (ids : List Int)
    (hlen : data.length = ids.length)
    (hdim : ∀ v ∈ data, v.length = h.dim)
    (hcap : h.element_count + data.length ≤ h.max_elements) :
    baseAddItems h data ids =
      (.ok (),
        { h with
            store := h.store ++ ids.zip data
            element_count := h.element_count + data.length }) := by
  unfold baseAddItems
  rw [if_neg (by omega)]
  rw [if_neg (by
    simp only [List.any_eq_true, decide_eq_true_eq, not_exists]
    intro v
    simp only [not_and, not_not]
    exact hdim v)]
  rw [if_neg (by omega)]

lemma lazyGrowAndInsert_ok (h1 : LazyHnsw) (data : List Vec) (ids : List Int)
    (hlen : data.length = ids.length) (hdim : ∀ v ∈ data, v.length = h1.dim) :
    lazyGrowAndInsert h1 data ids =
      (.ok (),
        { h1 with
            max_elements :=
              if h1.max_elements < data.length + h1.element_count then
                max (data.length + h1.element_count) h1.max_elements
              else h1.max_elements
            store := h1.store ++ ids.zip data
            element_count := h1.element_count + data.length }) := by
  unfold lazyGrowAndInsert
  by_cases hg : h1.max_elements < data.length + h1.element_count
  · simp only [if_pos hg]
    unfold baseResizeIndex
    rw [if_neg (by omega)]
    show baseAddItems
      { h1 with max_elements := max (data.length + h1.element_count) h1.max_elements }
      data ids = _
    rw [baseAddItems_ok
      { h1 with max_elements := max (data.length + h1.element_count) h1.max_elements }
      data ids hlen hdim
      (show h1.element_count + data.length ≤
        max (data.length + h1.element_count) h1.max_elements by omega)]
  · simp only [if_neg hg]
    rw [baseAddItems_ok h1 data ids hlen hdim (by omega)]

lemma lazyHnsw_round_trip (d : Nat) (S : List (Int × Vec))
    (hnd : (S.map Prod.fst).Nodup) (hdim : ∀ p ∈ S, p.2.length = d) :
    ((lazyHnswFresh d).add_items (S.map Prod.snd) (S.map Prod.fst)).1 = .ok ()
    ∧ ((lazyHnswFresh d).add_items (S.map Prod.snd) (S.map Prod.fst)).2.get_current_count
        = S.length
    ∧ ((lazyHnswFresh d).add_items (S.map Prod.snd) (S.map Prod.fst)).2.get_items
        (S.map Prod.fst) = .ok (S.map Prod.snd) := by
  have hdim2 : ∀ v ∈ S.map Prod.snd, v.length =
      ({ space := "l2", dim := d, init_max_elements := 1024, init_ef_construction := 200,
         init_M := 16, max_elements := 1024, element_count := 0,
         store := [] } : LazyHnsw).dim := by
    intro v hv
    obtain ⟨p, hp, rfl⟩ := List.mem_map.mp hv
    exact hdim p hp
  have haddeq : (lazyHnswFresh d).add_items (S.map Prod.snd) (S.map Prod.fst) =
      lazyGrowAndInsert
        { space := "l2", dim := d, init_max_elements := 1024, init_ef_construction := 200,
          init_M := 16, max_elements := 1024, element_count := 0, store := [] }
        (S.map Prod.snd) (S.map Prod.fst) := rfl
  rw [haddeq, lazyGrowAndInsert_ok _ _ _ (by simp) hdim2]
  refine ⟨rfl, ?_, ?_⟩
  · show 0 + (S.map Prod.snd).length = S.length
    simp
  · show (if (if (1024:Nat) < (S.map Prod.snd).length + 0 then
          max ((S.map Prod.snd).length + 0) 1024 else 1024) = 0 then
        (Except.ok [] : Except String (List Vec))
      else mapE (assocLookup "RuntimeError: label not found"
        ([] ++ (S.map Prod.fst).zip (S.map Prod.snd))) (S.map Prod.fst))
      = .ok (S.map Prod.snd)
    rw [if_neg (by split <;> omega)]
    rw [List.nil_append, zip_map_fst_snd]
    exact mapE_assocLookup "RuntimeError: label not found" S [] hnd

/-- Claim C6 (amended): after inserting a non-empty item set `S` with distinct
ids and dimension-correct vectors into a fresh index, the reference, faiss and
hnswlib adapters all report `get_current_count = |S|`, and `get_items` on the
ids of `S` returns exactly the inserted vectors in the requested order (the
model stores vectors exactly, so floating-point tolerance becomes equality).
The claim's "every adapter" fails on the redis adapter, whose
`get_current_count` raises `NotImplementedError`
(see `redis_count_counterexample`); non-emptiness is needed because the faiss
adapter's `get_items` raises on an empty id list (`np.vstack` of nothing). -/
theorem round_trip_insertion (d : Nat) (S : List (Int × Vec))
    (hnd : (S.map Prod.fst).Nodup) (hdim : ∀ p ∈ S, p.2.length = d) (hne : S ≠ []) :
    (((sciKitFresh d).add_items (S.map Prod.snd) (S.map Prod.fst)).get_current_count
        = S.length
      ∧ ((sciKitFresh d).add_items (S.map Prod.snd) (S.map Prod.fst)).get_items
          (S.map Prod.fst) = .ok (S.map Prod.snd))
    ∧ (((faissFresh d).add_items (S.map Prod.snd) (S.map Prod.fst)).map
          FaissIndexFactory.get_current_count = .ok S.length
      ∧ ((faissFresh d).add_items (S.map Prod.snd) (S.map Prod.fst)).bind
          (fun f => f.get_items (S.map Prod.fst)) = .ok (S.map Prod.snd))
    ∧ (((lazyHnswFresh d).add_items (S.map Prod.snd) (S.map Prod.fst)).1 = .ok ()
      ∧ ((lazyHnswFresh d).add_items (S.map Prod.snd) (S.map Prod.fst)).2.get_current_count
          = S.length
      ∧ ((lazyHnswFresh d).add_items (S.map Prod.snd) (S.map Prod.fst)).2.get_items
          (S.map Prod.fst) = .ok (S.map Prod.snd)) :=
  ⟨sciKit_round_trip d S hnd, faiss_round_trip d S hnd hdim hne,
    lazyHnsw_round_trip d S hnd hdim⟩

/-- Witness for the amended C6 at the concrete item set
`[(1, [0,0]), (2, [1,1])]` in dimension 2. -/
theorem round_trip_insertion_witness :
    (((sciKitFresh 2).add_items [[0, 0], [1, 1]] [1, 2]).get_current_count = 2
      ∧ ((sciKitFresh 2).add_items [[0, 0], [1, 1]] [1, 2]).get_items [1, 2]
          = .ok [[0, 0], [1, 1]])
    ∧ (((faissFresh 2).add_items [[0, 0], [1, 1]] [1, 2]).map
          FaissIndexFactory.get_current_count = .ok 2
      ∧ ((faissFresh 2).add_items [[0, 0], [1, 1]] [1, 2]).bind
          (fun f => f.get_items [1, 2]) = .ok [[0, 0], [1, 1]])
    ∧ (((lazyHnswFresh 2).add_items [[0, 0], [1, 1]] [1, 2]).1 = .ok ()
      ∧ ((lazyHnswFresh 2).add_items [[0, 0], [1, 1]] [1, 2]).2.get_current_count = 2
      ∧ ((lazyHnswFresh 2).add_items [[0, 0], [1, 1]] [1, 2]).2.get_items [1, 2]
          = .ok [[0, 0], [1, 1]]) :=
  round_trip_insertion 2 [(1, [0, 0]), (2, [1, 1])] (by decide) (by decide) (by decide)

/-! ## `RedisIndex` (networked-store adapter)

The remote store is modelled as the list of committed hashes (keyed records);
a redis-py pipeline is a buffer of queued commands plus its `transaction`
flag.  The remote vector-index declaration performed by `init_hnsw` and the
search round trip are outside the modelled state; every claim about this
adapter concerns `add_items`, the write scope, `get_items`, and
`get_current_count`. -/

/-- One stored hash: the fields written per item
(`embedding`, `item_id`, `partition`). -/
structure RedisHash : Type where
  embedding : Vec
  item_id : String
  part_tag : String
deriving DecidableEq, Repr

/-- A redis-py pipeline: its `transaction` flag and the buffered `HSET`
commands (key and hash). -/
structure RedisPipeline : Type where
  transaction : Bool
  cmds : List (String × RedisHash)
deriving DecidableEq, Repr

/-- State of `RedisIndex`: construction parameters, the committed server-side
hashes, and the instance's single mutable pipeline handle (`self.pipe`,
`none` for Python `None`). -/
structure RedisIndex : Type where
  space : String
  dim : Nat
  max_elements : Nat
  ef_construction : Nat
  M : Nat
  store : List (String × RedisHash)
  pipe : Option RedisPipeline
deriving DecidableEq, Repr

/-- `RedisIndex.__init__`: raises unless `redis_credentials` is provided;
otherwise connects, sets `self.pipe = None` and declares the remote vector
index (`init_hnsw`, outside the modelled store). -/
def redisConstruct (space : String) (dim : Nat)
    (redis_credentials : Option (List (String × String)))
    (max_elements : Nat) (ef_construction : Nat) (M : Nat) :
    Except String RedisIndex :=
  match redis_credentials with
  | none => .error "Exception: Redis credentials must be provided"
  | some _ =>
    .ok { space := space, dim := dim, max_elements := max_elements,
          ef_construction := ef_construction, M := M, store := [], pipe := none }

/-- `RedisIndex.__enter__`: `self.pipe = self.redis.pipeline()` — a fresh,
empty pipeline with redis-py's default `transaction=True`. -/
def RedisIndex.enterScope (r : RedisIndex) : RedisIndex :=
  { r with pipe := some { transaction := true, cmds := [] } }

/-- `RedisIndex.__exit__`: `self.pipe.execute(); self.pipe = None` — commits
the buffered commands; when `self.pipe` is `None` the attribute access raises
`AttributeError`. -/
def RedisIndex.exitScope (r : RedisIndex) : Except String RedisIndex :=
  match r.pipe with
  | none => .error "AttributeError: NoneType object has no attribute execute"
  | some p => .ok { r with store := r.store ++ p.cmds, pipe := none }

/-- The `HSET` commands one `add_items` batch queues: `zip(data, ids)`
(truncating to the shorter list, as Python `zip` does), each item keyed
`"item:" + str(id)` with its embedding, stringified id and partition tag
(empty when no partition is given). -/
def redisBatch (data : List Vec) (ids : List Int) (part : Option String) :
    List (String × RedisHash) :=
  (data.zip ids).map (fun q =>
    ("item:" ++ toString q.2,
     { embedding := q.1, item_id := toString q.2, part_tag := part.getD "" }))

/-- `RedisIndex.add_items`: unconditionally replaces `self.pipe` with a fresh
`transaction=False` pipeline, queues one `HSET` per item, executes the
pipeline immediately (committing the batch to the store), and sets
`self.pipe = None`.  Whatever pipeline an enclosing scope had installed is
discarded unread. -/
def RedisIndex.add_items (r : RedisIndex) (data : List Vec) (ids : List Int)
    (part : Option String) : RedisIndex :=
  { r with store := r.store ++ redisBatch data ids part, pipe := none }

/-- First hash stored under a string key in the modelled server store. -/
def assocFindStr (k : String) : List (String × RedisHash) → Option RedisHash
  | [] => none
  | p :: ps => if p.1 = k then some p.2 else assocFindStr k ps

/-- `RedisIndex.get_items`: one `HGET` of the `embedding` field per id;
a missing key yields Python `None`, modelled as `none`. -/
def RedisIndex.get_items (r : RedisIndex) (ids : List Int) : List (Option Vec) :=
  ids.map (fun i =>
    (assocFindStr ("item:" ++ toString i) r.store).map RedisHash.embedding)

/-- `RedisIndex.get_current_count`: always raises `NotImplementedError`. -/
def RedisIndex.get_current_count (_ : RedisIndex) : Except String Nat :=
  .error "NotImplementedError: RedisIndex is not implemented yet"

/-- `RedisIndex.get_max_elements`: the declared capacity. -/
def RedisIndex.get_max_elements (r : RedisIndex) : Nat := r.max_elements

/-- The concrete index `redisConstruct "l2" 2 (some creds) 1024 200 16`
returns. -/
def redisR0 : RedisIndex :=
  { space := "l2", dim := 2, max_elements := 1024, ef_construction := 200,
    M := 16, store := [], pipe := none }

lemma redisConstruct_ok :
    redisConstruct "l2" 2 (some [("host", "localhost")]) 1024 200 16 = .ok redisR0 :=
  rfl

/-- Claim C5 (code-bug evaluation at the failing input): calling `add_items`
inside an open write scope commits the batch to the store immediately — before
any scope exit — and leaves the pipeline handle `None`, so the scope's
`__exit__` raises `AttributeError`.  The batch is not held for an atomic
commit on scope exit (and `add_items` builds its own `transaction=False`
pipeline rather than using the scope's transactional one), contradicting the
claimed scoped transactional discipline. -/
theorem redis_add_items_commits_inside_scope :
    ((redisR0.enterScope).add_items [[1, 2]] [5] none).store =
      [("item:5", { embedding := [1, 2], item_id := "5", part_tag := "" })]
    ∧ ((redisR0.enterScope).add_items [[1, 2]] [5] none).pipe = none
    ∧ RedisIndex.exitScope ((redisR0.enterScope).add_items [[1, 2]] [5] none) =
        .error "AttributeError: NoneType object has no attribute execute" :=
  ⟨rfl, rfl, rfl⟩

/-- Claim C10: on any redis index with an open write scope (`pipe = some p`),
`add_items` commits its batch to the store at once, leaves the pipeline handle
`None`, and the subsequent `__exit__` raises `AttributeError` (its
`self.pipe.execute()` dereferences `None`). -/
theorem redis_add_items_breaks_open_scope (r : RedisIndex) (data : List Vec)
    (ids : List Int) (part : Option String) (p : RedisPipeline)
    (_hopen : r.pipe = some p) :
    (r.add_items data ids part).store = r.store ++ redisBatch data ids part
    ∧ (r.add_items data ids part).pipe = none
    ∧ RedisIndex.exitScope (r.add_items data ids part) =
        .error "AttributeError: NoneType object has no attribute execute" :=
  ⟨rfl, rfl, rfl⟩

/-- Witness for C10 at a concrete index and batch. -/
theorem redis_add_items_breaks_open_scope_witness :
    ((redisR0.enterScope).add_items [[3, 4]] [9] none).store =
        redisR0.enterScope.store ++ redisBatch [[3, 4]] [9] none
    ∧ ((redisR0.enterScope).add_items [[3, 4]] [9] none).pipe = none
    ∧ RedisIndex.exitScope ((redisR0.enterScope).add_items [[3, 4]] [9] none) =
        .error "AttributeError: NoneType object has no attribute execute" :=
  redis_add_items_breaks_open_scope redisR0.enterScope [[3, 4]] [9] none
    { transaction := true, cmds := [] } rfl

/-- Counterexample to C6 as stated: after inserting one item into a fresh
redis index, `get_current_count` raises `NotImplementedError` instead of
returning `1`. -/
theorem redis_count_counterexample :
    (redisR0.add_items [[1, 2]] [5] none).get_current_count =
      .error "NotImplementedError: RedisIndex is not implemented yet" :=
  rfl

lemma baseAddItems_dim_error (h : LazyHnsw) (data : List Vec) (ids : List Int)
    (hlen : data.length = ids.length)
    (hbad : data.any (fun v => v.length ≠ h.dim) = true) :
    baseAddItems h data ids =
      (.error "RuntimeError: wrong dimensionality of the vectors", h) := by
  unfold baseAddItems
  rw [if_neg (by omega), if_pos hbad]

lemma lazyGrowAndInsert_dim_error (h1 : LazyHnsw) (data : List Vec) (ids : List Int)
    (hlen : data.length = ids.length)
    (hbad : data.any (fun v => v.length ≠ h1.dim) = true) :
    lazyGrowAndInsert h1 data ids =
      (.error "RuntimeError: wrong dimensionality of the vectors",
        { h1 with
            max_elements :=
              if h1.max_elements < data.length + h1.element_count then
                max (data.length + h1.element_count) h1.max_elements
              else h1.max_elements }) := by
  unfold lazyGrowAndInsert
  by_cases hg : h1.max_elements < data.length + h1.element_count
  · simp only [if_pos hg]
    unfold baseResizeIndex
    rw [if_neg (by omega)]
    show baseAddItems
      { h1 with max_elements := max (data.length + h1.element_count) h1.max_elements }
      data ids = _
    rw [baseAddItems_dim_error
      { h1 with max_elements := max (data.length + h1.element_count) h1.max_elements }
      data ids hlen hbad]
  · simp only [if_neg hg]
    rw [baseAddItems_dim_error h1 data ids hlen hbad]

lemma add_items_dim_error (hh : LazyHnsw) (data : List Vec) (ids : List Int)
    (hlen : data.length = ids.length)
    (hbad : data.any (fun v => v.length ≠ hh.dim) = true) :
    (hh.add_items data ids).1 = .error "RuntimeError: wrong dimensionality of the vectors"
    ∧ (hh.add_items data ids).2.element_count = hh.element_count
    ∧ (hh.add_items data ids).2.store = hh.store := by
  unfold LazyHnsw.add_items
  by_cases h0 : hh.max_elements = 0
  · rw [if_pos h0, lazyGrowAndInsert_dim_error (hh.init 0) data ids hlen hbad]
    exact ⟨rfl, rfl, rfl⟩
  · rw [if_neg h0, lazyGrowAndInsert_dim_error hh data ids hlen hbad]
    exact ⟨rfl, rfl, rfl⟩

/-- Claim C9 (amended): the engine-backed faiss and hnswlib adapters do fail
on a batch containing a vector whose length differs from the declared
dimensionality, before any vector of the batch is written: the faiss adapter
returns the error unchanged, and the hnswlib adapter returns the error with
the element count and stored items unchanged (only its capacity may already
have grown).  The claim's "every adapter" fails: the reference adapter has no
dimensionality check at all and silently stores the mismatched vector
(see `sciKit_add_items_no_dim_check`), and the redis adapter likewise stores
whatever bytes result. -/
theorem dim_mismatch_checked_adapters (f : FaissIndexFactory) (hh : LazyHnsw)
    (data : List Vec) (ids : List Int)
    (hlen : data.length = ids.length)
    (hbadf : data.any (fun v => v.length ≠ f.dim) = true)
    (hbadh : data.any (fun v => v.length ≠ hh.dim) = true) :
    f.add_items data ids =
      .error "ValueError: vector dimensionality does not match the index"
    ∧ (hh.add_items data ids).1 =
        .error "RuntimeError: wrong dimensionality of the vectors"
    ∧ (hh.add_items data ids).2.element_count = hh.element_count
    ∧ (hh.add_items data ids).2.store = hh.store := by
  obtain ⟨ha, hb, hc⟩ := add_items_dim_error hh data ids hlen hbadh
  refine ⟨?_, ha, hb, hc⟩
  unfold FaissIndexFactory.add_items
  rw [if_pos hbadf]

/-- Witness for the amended C9: a length-3 vector offered to dim-2 faiss and
hnswlib indexes is rejected with no write. -/
theorem dim_mismatch_checked_adapters_witness :
    (faissFresh 2).add_items [[1, 2, 3]] [7] =
      .error "ValueError: vector dimensionality does not match the index"
    ∧ ((lazyHnswFresh 2).add_items [[1, 2, 3]] [7]).1 =
        .error "RuntimeError: wrong dimensionality of the vectors"
    ∧ ((lazyHnswFresh 2).add_items [[1, 2, 3]] [7]).2.element_count =
        (lazyHnswFresh 2).element_count
    ∧ ((lazyHnswFresh 2).add_items [[1, 2, 3]] [7]).2.store = (lazyHnswFresh 2).store :=
  dim_mismatch_checked_adapters (faissFresh 2) (lazyHnswFresh 2) [[1, 2, 3]] [7]
    rfl (by decide) (by decide)
